import Mathlib

/-!
Verification of the decision pipeline of `realtime_network_monitor.py`:
feature normalization (`preprocess_features`), the prediction and
multi-criterion attack classifier (`predict`), the running statistics
query (`get_statistics`), and the streaming monitor's routing of results
to severity buckets and the alert log (`process_data_stream`).

Machine floats of the source are modelled as exact rationals (`ℚ`);
Python dicts as association lists; the ONNX inference session as an
opaque function parameter returning the probability batch.
-/

namespace NetworkMonitor

/-! ## String helpers: Python `in` substring test and `.lower()` membership -/

/-- Does the character list contain `pat` as a contiguous subsequence?
Embeds Python `pat in s` for strings. -/
def containsSeq (pat : List Char) : List Char → Bool
  | [] => pat.isEmpty
  | c :: rest => pat.isPrefixOf (c :: rest) || containsSeq pat rest

/-- `strContains s pat` embeds Python `pat in s` (case-sensitive substring). -/
def strContains (s pat : String) : Bool :=
  containsSeq pat.toList s.toList

/-- Python `str.lower()`, character by character (the class labels are
ASCII). -/
def strToLower (s : String) : String :=
  ⟨s.data.map Char.toLower⟩

/-- Line 89: `predicted_class.lower() in ['benigntraffic', 'benign', 'normal']`. -/
def isBenignClass (predicted_class : String) : Bool :=
  decide (strToLower predicted_class ∈ (["benigntraffic", "benign", "normal"] : List String))

/-- Line 102: `[cls for cls in self.classes if 'DDoS' in cls or 'DoS' in cls]`. -/
def ddosClasses (classes : List String) : List String :=
  classes.filter (fun cls => strContains cls "DDoS" || strContains cls "DoS")

/-! ## numpy helpers: `np.argmax`, `np.max`/`np.min`, `np.mean` over a list -/

/-- `np.max` of a nonempty list (0 on the empty list, which numpy rejects). -/
def listMax : List ℚ → ℚ
  | [] => 0
  | [x] => x
  | x :: y :: xs => max x (listMax (y :: xs))

/-- `np.min` of a nonempty list (0 on the empty list, which numpy rejects). -/
def listMin : List ℚ → ℚ
  | [] => 0
  | [x] => x
  | x :: y :: xs => min x (listMin (y :: xs))

/-- `np.argmax`: index of the first occurrence of the maximum value. -/
def argmax : List ℚ → ℕ
  | [] => 0
  | [_] => 0
  | x :: y :: xs => if listMax (y :: xs) ≤ x then 0 else argmax (y :: xs) + 1

/-- `np.mean` of a list of rationals. -/
def mean (l : List ℚ) : ℚ :=
  l.sum / l.length

/-! ## Feature dictionaries (Python dict of feature name to value) -/

/-- Python `features_dict.get(feature_name, default)`. -/
def dictGetD (d : List (String × ℚ)) (k : String) (default : ℚ) : ℚ :=
  match d.lookup k with
  | some v => v
  | none => default

/-- Lines 57-59: the ordered vector of required features, with every
required name absent from the input mapping substituted by `0.0`. -/
def feature_values (feature_names : List String) (features_dict : List (String × ℚ)) :
    List ℚ :=
  feature_names.map (fun n => dictGetD features_dict n 0)

/-! ## Batches and the fitted scaler -/

/-- numpy dtype tags relevant to the pipeline. -/
inductive Dtype where
  | float64 : Dtype
  | float32 : Dtype
deriving DecidableEq

/-- A numpy 2-d array: a dtype together with its rows. -/
structure Batch where
  dtype : Dtype
  rows : List (List ℚ)
deriving DecidableEq

/-- `ndarray.astype`. -/
def Batch.astype (b : Batch) (d : Dtype) : Batch :=
  { b with dtype := d }

/-- Modelled from the spec: the fitted scaling transform is loaded from the
serialized metadata artifact and its code is not part of this repository;
§4.1 describes it as a previously fitted linear/affine (mean/variance)
scaling that can fail on a shape mismatch or when not fitted for the given
columns. -/
structure FittedScaler where
  mean : List ℚ
  scale : List ℚ
deriving DecidableEq

/-- Modelled from the spec: apply the fitted affine scaling to one row,
failing (as `sklearn`'s `transform` raises) when the row's shape does not
match the fitted parameters. -/
def FittedScaler.transformRow (s : FittedScaler) (row : List ℚ) : Except String (List ℚ) :=
  if row.length = s.mean.length ∧ row.length = s.scale.length then
    Except.ok ((row.zip (s.mean.zip s.scale)).map (fun p => (p.1 - p.2.1) / p.2.2))
  else
    Except.error "shape mismatch: transform not fitted for given columns"

/-- Lines 55-69, `NetworkAttackDetector.preprocess_features`: build the
ordered single-row feature frame, try the fitted scaler, fall back to the
raw unscaled values on any transform error while emitting a warning, and
cast the result to `float32`. Returns the batch together with the list of
warnings printed. -/
def preprocess_features (scaler : FittedScaler) (feature_names : List String)
    (features_dict : List (String × ℚ)) : Batch × List String :=
  let fv := feature_values feature_names features_dict
  match scaler.transformRow fv with
  | Except.ok scaled =>
      (Batch.astype { dtype := Dtype.float64, rows := [scaled] } Dtype.float32, [])
  | Except.error e =>
      (Batch.astype { dtype := Dtype.float64, rows := [fv] } Dtype.float32,
       ["Aviso: Erro na normalizacao, usando dados sem normalizacao: " ++ e])

/-! ## The detector -/

/-- The result dictionary returned by `predict` (lines 118-129); the
wall-clock timestamp is omitted from the model. -/
structure PredictionResult where
  predicted_class : String
  confidence : ℚ
  is_attack : Bool
  is_benign : Bool
  is_high_threat : Bool
  is_ddos : Bool
  confidence_threshold : ℚ
  inference_time_ms : ℚ
  all_probabilities : List ℚ
deriving DecidableEq

/-- The detector's mutable running statistics (lines 51-53). -/
structure DetectorState where
  total_predictions : ℕ
  attack_detections : ℕ
  inference_times : List ℚ
deriving DecidableEq

/-- Lines 51-53: counters start at zero with no recorded latencies. -/
def initialState : DetectorState :=
  { total_predictions := 0, attack_detections := 0, inference_times := [] }

/-- The detector's immutable configuration, fixed at construction
(lines 22-44): threshold, class labels, low-threat labels, required
feature names, and the fitted scaler from the metadata bundle. -/
structure DetectorConfig where
  confidence_threshold : ℚ
  classes : List String
  low_threat_classes : List String
  feature_names : List String
  scaler : FittedScaler

/-- Line 40-44: the hardcoded low-threat class list. -/
def defaultLowThreatClasses : List String :=
  ["VulnerabilityScan", "Recon-PingSweep", "BrowserHijacking"]

/-- Lines 89-112: the benign short-circuit followed by the three-criterion
verdict `(high_confidence_attack and is_high_threat) or
(high_confidence_attack and is_ddos) or (confidence > 0.9)`. -/
def attackVerdict (cfg : DetectorConfig) (predicted_class : String) (confidence : ℚ) :
    Bool :=
  if isBenignClass predicted_class then
    false
  else
    (decide (cfg.confidence_threshold < confidence) &&
      !(decide (predicted_class ∈ cfg.low_threat_classes))) ||
    (decide (cfg.confidence_threshold < confidence) &&
      decide (predicted_class ∈ ddosClasses cfg.classes)) ||
    decide (mkRat 9 10 < confidence)

/-- Lines 80-129 of `NetworkAttackDetector.predict`, from the point where
the inference session has produced the probability vector
`probs0 = probabilities[0]` and the latency has been measured: argmax
classification, benign short-circuit, the three-criterion attack verdict,
the statistics update, and the result record. -/
def predictOnProbs (cfg : DetectorConfig) (probs0 : List ℚ) (inference_time : ℚ)
    (st : DetectorState) : PredictionResult × DetectorState :=
  let predicted_class_idx := argmax probs0
  let predicted_class := cfg.classes.getD predicted_class_idx ""
  let confidence := probs0.getD predicted_class_idx 0
  let st1 : DetectorState :=
    { st with
      total_predictions := st.total_predictions + 1
      inference_times := st.inference_times ++ [inference_time] }
  let is_benign := isBenignClass predicted_class
  let is_critical_attack := attackVerdict cfg predicted_class confidence
  let st2 : DetectorState :=
    if is_critical_attack then
      { st1 with attack_detections := st1.attack_detections + 1 }
    else
      st1
  ({ predicted_class := predicted_class
     confidence := confidence
     is_attack := is_critical_attack
     is_benign := is_benign
     is_high_threat :=
       if is_benign then false else !(decide (predicted_class ∈ cfg.low_threat_classes))
     is_ddos :=
       if is_benign then false else decide (predicted_class ∈ ddosClasses cfg.classes)
     confidence_threshold := cfg.confidence_threshold
     inference_time_ms := inference_time
     all_probabilities := probs0 }, st2)

/-- Lines 71-129, `NetworkAttackDetector.predict`: preprocess the features,
run the inference session on the batch (the session is an opaque function
from the feature batch to the probability batch; the measured latency is a
parameter), then classify `probabilities[0]`. -/
def predict (cfg : DetectorConfig) (session_probs : List (List ℚ) → List (List ℚ))
    (inference_time : ℚ) (features_dict : List (String × ℚ)) (st : DetectorState) :
    PredictionResult × DetectorState :=
  let features := (preprocess_features cfg.scaler cfg.feature_names features_dict).1
  predictOnProbs cfg ((session_probs features.rows).getD 0 []) inference_time st

/-! ## Statistics query -/

/-- The statistics dictionary of `get_statistics` (lines 136-145). -/
structure Statistics where
  total_predictions : ℕ
  attack_detections : ℕ
  attack_rate : ℚ
  avg_inference_time_ms : ℚ
  max_inference_time_ms : ℚ
  min_inference_time_ms : ℚ
  throughput_per_second : ℚ
  confidence_threshold : ℚ
deriving DecidableEq

/-- Lines 131-145, `NetworkAttackDetector.get_statistics`: an empty dict
(`none`) when no inference times are recorded; otherwise the computed
snapshot, with the attack rate guarded by `total_predictions > 0`. -/
def get_statistics (cfg : DetectorConfig) (st : DetectorState) : Option Statistics :=
  if st.inference_times = [] then
    none
  else
    some
      { total_predictions := st.total_predictions
        attack_detections := st.attack_detections
        attack_rate :=
          if 0 < st.total_predictions then
            (st.attack_detections : ℚ) / (st.total_predictions : ℚ)
          else
            0
        avg_inference_time_ms := mean st.inference_times
        max_inference_time_ms := listMax st.inference_times
        min_inference_time_ms := listMin st.inference_times
        throughput_per_second := 1000 / mean st.inference_times
        confidence_threshold := cfg.confidence_threshold }

/-! ## The monitor worker's routing of one result -/

/-- Severity buckets of the worker's notifications (lines 238-250). -/
inductive Bucket where
  | critical : Bucket
  | normal : Bucket
  | suspicious : Bucket
  | lowRisk : Bucket
deriving DecidableEq

/-- Observable output effects of processing one result: a notice on the
report stream (`save_result`) or a JSON line appended to the alert log
(`log_detection`). -/
inductive Effect where
  | report (b : Bucket) (predicted_class : String) (confidence : ℚ) : Effect
  | alertLogLine (r : PredictionResult) : Effect
deriving DecidableEq

/-- Lines 238-250 of `RealTimeMonitor.process_data_stream`: the routing of
one `PredictionResult` into severity buckets and sinks, in source order.
`thr` is `self.detector.confidence_threshold`. -/
def processOne (thr : ℚ) (r : PredictionResult) : List Effect :=
  if r.is_attack then
    [Effect.report Bucket.critical r.predicted_class r.confidence, Effect.alertLogLine r]
  else if r.is_benign then
    [Effect.report Bucket.normal r.predicted_class r.confidence]
  else if thr ≤ r.confidence then
    [Effect.report Bucket.suspicious r.predicted_class r.confidence]
  else
    [Effect.report Bucket.lowRisk r.predicted_class r.confidence]

/-- The severity buckets of the report-stream notices among a list of effects. -/
def reportBuckets (es : List Effect) : List Bucket :=
  es.filterMap (fun e =>
    match e with
    | Effect.report b _ _ => some b
    | Effect.alertLogLine _ => none)

/-- The results appended to the alert log among a list of effects. -/
def alertLines (es : List Effect) : List PredictionResult :=
  es.filterMap (fun e =>
    match e with
    | Effect.report _ _ _ => none
    | Effect.alertLogLine r => some r)

/-! ## Reachable detector states -/

/-- Detector states reachable from construction by completed `predict`
calls (the only operations that mutate the running statistics). -/
inductive Reachable (cfg : DetectorConfig) : DetectorState → Prop where
  | init : Reachable cfg initialState
  | step (session_probs : List (List ℚ) → List (List ℚ)) (t : ℚ)
      (fd : List (String × ℚ)) (st : DetectorState) :
      Reachable cfg st → Reachable cfg (predict cfg session_probs t fd st).2

/-! ## Helper lemmas about the numpy embeddings -/

theorem listMax_mem : ∀ (l : List ℚ), l ≠ [] → listMax l ∈ l
  | [], h => absurd rfl h
  | [x], _ => by simp [listMax]
  | x :: y :: xs, _ => by
    have ih := listMax_mem (y :: xs) (by simp)
    rcases le_total (listMax (y :: xs)) x with hc | hc
    · simp [listMax, max_eq_left hc]
    · simp only [listMax, max_eq_right hc]
      exact List.mem_cons_of_mem x ih

theorem le_listMax : ∀ (l : List ℚ), ∀ a ∈ l, a ≤ listMax l
  | [x], a, ha => by
    rcases List.mem_singleton.mp ha with rfl
    simp [listMax]
  | x :: y :: xs, a, ha => by
    rcases List.mem_cons.mp ha with rfl | hmem
    · simp [listMax, le_max_left]
    · have ih := le_listMax (y :: xs) a hmem
      simp only [listMax]
      exact ih.trans (le_max_right _ _)

theorem argmax_lt_length : ∀ (l : List ℚ), l ≠ [] → argmax l < l.length
  | [], h => absurd rfl h
  | [_], _ => by simp [argmax]
  | x :: y :: xs, _ => by
    have ih := argmax_lt_length (y :: xs) (by simp)
    by_cases hc : listMax (y :: xs) ≤ x
    · simp [argmax, hc]
    · have ih2 : argmax (y :: xs) < xs.length + 1 := by simpa using ih
      simp only [argmax, if_neg hc, List.length_cons]
      omega

theorem getD_argmax : ∀ (l : List ℚ), l ≠ [] → l.getD (argmax l) 0 = listMax l
  | [], h => absurd rfl h
  | [x], _ => by simp [argmax, listMax]
  | x :: y :: xs, _ => by
    have ih := getD_argmax (y :: xs) (by simp)
    by_cases hc : listMax (y :: xs) ≤ x
    · simp [argmax, listMax, hc, max_eq_left hc]
    · have hlt : x ≤ listMax (y :: xs) := le_of_lt (lt_of_not_le hc)
      simp only [argmax, if_neg hc, listMax, List.getD_cons_succ, max_eq_right hlt]
      exact ih

theorem getD_lt_listMax_of_lt_argmax :
    ∀ (l : List ℚ) (j : ℕ), j < argmax l → l.getD j 0 < listMax l
  | [], j, hj => by simp [argmax] at hj
  | [_], j, hj => by simp [argmax] at hj
  | x :: y :: xs, j, hj => by
    by_cases hc : listMax (y :: xs) ≤ x
    · simp [argmax, hc] at hj
    · have hx : x < listMax (y :: xs) := lt_of_not_le hc
      simp only [argmax, if_neg hc] at hj
      simp only [listMax, max_eq_right (le_of_lt hx)]
      match j with
      | 0 => simpa using hx
      | j + 1 =>
        have ih := getD_lt_listMax_of_lt_argmax (y :: xs) j (by omega)
        simpa using ih

/-! ## Helper lemmas about the classifier -/

theorem mem_ddosClasses_iff (classes : List String) (cls : String) :
    cls ∈ ddosClasses classes ↔
      cls ∈ classes ∧ (strContains cls "DDoS" = true ∨ strContains cls "DoS" = true) := by
  simp [ddosClasses, List.mem_filter]

theorem attackVerdict_benign (cfg : DetectorConfig) (pc : String) (c : ℚ)
    (hb : isBenignClass pc = true) : attackVerdict cfg pc c = false := by
  simp [attackVerdict, hb]

theorem attackVerdict_eq_true_iff (cfg : DetectorConfig) (pc : String) (c : ℚ)
    (hb : isBenignClass pc = false) :
    attackVerdict cfg pc c = true ↔
      ((cfg.confidence_threshold < c ∧ pc ∉ cfg.low_threat_classes) ∨
       (cfg.confidence_threshold < c ∧ pc ∈ ddosClasses cfg.classes) ∨
       mkRat 9 10 < c) := by
  simp [attackVerdict, hb, and_assoc, or_assoc]

theorem predictOnProbs_fst (cfg : DetectorConfig) (probs0 : List ℚ) (t : ℚ)
    (st : DetectorState) :
    (predictOnProbs cfg probs0 t st).1 =
      { predicted_class := cfg.classes.getD (argmax probs0) ""
        confidence := probs0.getD (argmax probs0) 0
        is_attack :=
          attackVerdict cfg (cfg.classes.getD (argmax probs0) "")
            (probs0.getD (argmax probs0) 0)
        is_benign := isBenignClass (cfg.classes.getD (argmax probs0) "")
        is_high_threat :=
          if isBenignClass (cfg.classes.getD (argmax probs0) "") then false
          else !(decide (cfg.classes.getD (argmax probs0) "" ∈ cfg.low_threat_classes))
        is_ddos :=
          if isBenignClass (cfg.classes.getD (argmax probs0) "") then false
          else decide (cfg.classes.getD (argmax probs0) "" ∈ ddosClasses cfg.classes)
        confidence_threshold := cfg.confidence_threshold
        inference_time_ms := t
        all_probabilities := probs0 } := rfl

theorem predictOnProbs_snd (cfg : DetectorConfig) (probs0 : List ℚ) (t : ℚ)
    (st : DetectorState) :
    (predictOnProbs cfg probs0 t st).2 =
      { total_predictions := st.total_predictions + 1
        attack_detections :=
          st.attack_detections +
            (if (predictOnProbs cfg probs0 t st).1.is_attack then 1 else 0)
        inference_times := st.inference_times ++ [t] } := by
  simp only [predictOnProbs]
  by_cases h :
      attackVerdict cfg (cfg.classes.getD (argmax probs0) "")
        (probs0.getD (argmax probs0) 0) = true
  · rw [if_pos h, if_pos h]
  · rw [if_neg h, if_neg h]
    simp

/-! ## Helper lemmas about preprocessing -/

theorem transformRow_ok_length (s : FittedScaler) (row out : List ℚ)
    (h : s.transformRow row = Except.ok out) : out.length = row.length := by
  unfold FittedScaler.transformRow at h
  split at h
  · rename_i hc
    simp only [Except.ok.injEq] at h
    subst h
    simp only [List.length_map, List.length_zip]
    omega
  · simp at h

theorem feature_values_length (names : List String) (fd : List (String × ℚ)) :
    (feature_values names fd).length = names.length := by
  simp [feature_values]

theorem feature_values_getD (names : List String) (fd : List (String × ℚ)) (i : ℕ)
    (hi : i < names.length) :
    (feature_values names fd).getD i 0 = dictGetD fd (names.getD i "") 0 := by
  have hlen : i < (feature_values names fd).length := by
    simpa [feature_values] using hi
  rw [List.getD_eq_getElem _ _ hlen, List.getD_eq_getElem _ _ hi]
  simp [feature_values]

theorem feature_values_missing (names : List String) (fd : List (String × ℚ)) (i : ℕ)
    (hi : i < names.length) (hmiss : fd.lookup (names.getD i "") = none) :
    (feature_values names fd).getD i 0 = 0 := by
  rw [feature_values_getD names fd i hi]
  unfold dictGetD
  rw [hmiss]

theorem preprocess_features_ok (scaler : FittedScaler) (names : List String)
    (fd : List (String × ℚ)) (out : List ℚ)
    (h : scaler.transformRow (feature_values names fd) = Except.ok out) :
    preprocess_features scaler names fd =
      ({ dtype := Dtype.float32, rows := [out] }, []) := by
  simp [preprocess_features, h, Batch.astype]

theorem preprocess_features_error (scaler : FittedScaler) (names : List String)
    (fd : List (String × ℚ)) (e : String)
    (h : scaler.transformRow (feature_values names fd) = Except.error e) :
    preprocess_features scaler names fd =
      ({ dtype := Dtype.float32, rows := [feature_values names fd] },
       ["Aviso: Erro na normalizacao, usando dados sem normalizacao: " ++ e]) := by
  simp [preprocess_features, h, Batch.astype]

theorem preprocess_features_shape (scaler : FittedScaler) (names : List String)
    (fd : List (String × ℚ)) :
    (preprocess_features scaler names fd).1.rows.length = 1 ∧
    (∀ row ∈ (preprocess_features scaler names fd).1.rows, row.length = names.length) ∧
    (preprocess_features scaler names fd).1.dtype = Dtype.float32 := by
  cases h : scaler.transformRow (feature_values names fd) with
  | ok out =>
    rw [preprocess_features_ok scaler names fd out h]
    refine ⟨rfl, ?_, rfl⟩
    intro row hrow
    simp only [List.mem_singleton] at hrow
    subst hrow
    rw [transformRow_ok_length _ _ _ h, feature_values_length]
  | error e =>
    rw [preprocess_features_error scaler names fd e h]
    refine ⟨rfl, ?_, rfl⟩
    intro row hrow
    simp only [List.mem_singleton] at hrow
    subst hrow
    exact feature_values_length names fd

/-! ## Helper lemmas about reachable states -/

theorem reachable_total_eq_length (cfg : DetectorConfig) (st : DetectorState)
    (h : Reachable cfg st) : st.total_predictions = st.inference_times.length := by
  induction h with
  | init => rfl
  | step sess t fd st2 hst ih =>
    simp only [predict, predictOnProbs_snd]
    simp [ih]


/-! ## Concrete data used to exercise the theorems -/

/-- A small fitted scaler matching two features. -/
def sampleScaler : FittedScaler :=
  { mean := [0, 0], scale := [1, 1] }

/-- A concrete detector configuration with the default threshold `0.8` and
the hardcoded low-threat classes. -/
def sampleConfig : DetectorConfig :=
  { confidence_threshold := mkRat 4 5
    classes := ["BenignTraffic", "DDoS-ICMP_Flood", "VulnerabilityScan", "Recon-PingSweep"]
    low_threat_classes := defaultLowThreatClasses
    feature_names := ["f1", "f2"]
    scaler := sampleScaler }

/-- A configuration whose scaler is fitted for zero columns, so the
transform fails on every nonempty feature row. -/
def badScalerConfig : DetectorConfig :=
  { confidence_threshold := mkRat 4 5
    classes := ["BenignTraffic", "DDoS-ICMP_Flood"]
    low_threat_classes := defaultLowThreatClasses
    feature_names := ["f1"]
    scaler := { mean := [], scale := [] } }

/-- A concrete critical-attack result (class `DDoS-ICMP_Flood` at
confidence `0.85`). -/
def sampleAttackResult : PredictionResult :=
  { predicted_class := "DDoS-ICMP_Flood"
    confidence := mkRat 17 20
    is_attack := true
    is_benign := false
    is_high_threat := true
    is_ddos := true
    confidence_threshold := mkRat 4 5
    inference_time_ms := 1
    all_probabilities := [mkRat 1 20, mkRat 17 20, mkRat 1 20, mkRat 1 20] }

/-! ## The claims -/

/-- **C1**: for every prediction whose predicted class is not benign,
`is_attack = true` exactly when `(confidence > threshold ∧ class ∉
LowThreatSet) ∨ (confidence > threshold ∧ is_ddos) ∨ confidence > 9/10`,
with every comparison strict; in particular a low-threat, non-DDoS class
with confidence above the threshold but at most `9/10` is not an attack. -/
theorem c1_attack_formula (cfg : DetectorConfig) (probs0 : List ℚ) (t : ℚ)
    (st : DetectorState)
    (hb : (predictOnProbs cfg probs0 t st).1.is_benign = false) :
    ((predictOnProbs cfg probs0 t st).1.is_attack = true ↔
      ((cfg.confidence_threshold < (predictOnProbs cfg probs0 t st).1.confidence ∧
        (predictOnProbs cfg probs0 t st).1.predicted_class ∉ cfg.low_threat_classes) ∨
       (cfg.confidence_threshold < (predictOnProbs cfg probs0 t st).1.confidence ∧
        (predictOnProbs cfg probs0 t st).1.is_ddos = true) ∨
       mkRat 9 10 < (predictOnProbs cfg probs0 t st).1.confidence)) ∧
    ((predictOnProbs cfg probs0 t st).1.predicted_class ∈ cfg.low_threat_classes →
      (predictOnProbs cfg probs0 t st).1.is_ddos = false →
      cfg.confidence_threshold < (predictOnProbs cfg probs0 t st).1.confidence →
      (predictOnProbs cfg probs0 t st).1.confidence ≤ mkRat 9 10 →
      (predictOnProbs cfg probs0 t st).1.is_attack = false) := by
  simp only [predictOnProbs_fst] at hb ⊢
  rw [if_neg (by rw [Bool.not_eq_true]; exact hb)]
  constructor
  · rw [attackVerdict_eq_true_iff _ _ _ hb]
    simp only [decide_eq_true_eq]
  · intro h1 h2 h3 h4
    simp only [decide_eq_false_iff_not] at h2
    cases hA : attackVerdict cfg (cfg.classes.getD (argmax probs0) "")
        (probs0.getD (argmax probs0) 0) with
    | false => rfl
    | true =>
      rcases (attackVerdict_eq_true_iff _ _ _ hb).mp hA with ⟨_, hnot⟩ | ⟨_, hdd⟩ | hgt
      · exact absurd h1 hnot
      · exact absurd hdd h2
      · exact absurd h4 (not_le.mpr hgt)

/-- **C1** witness: a non-benign DDoS class with confidence `0.85` above the
threshold `0.8` is flagged as an attack. -/
theorem c1_attack_formula_witness :
    (predictOnProbs sampleConfig [mkRat 1 20, mkRat 17 20, mkRat 1 20, mkRat 1 20] 1
      initialState).1.is_attack = true := by
  have h := c1_attack_formula sampleConfig
    [mkRat 1 20, mkRat 17 20, mkRat 1 20, mkRat 1 20] 1 initialState (by decide)
  exact h.1.mpr (by decide)

/-- **C2**: a predicted class whose lowercase form is benign yields
`is_benign = true`, `is_attack = false`, `is_high_threat = false`,
`is_ddos = false`; and for all results `is_benign = true` implies
`is_attack = false`. -/
theorem c2_benign_short_circuit :
    (∀ (cfg : DetectorConfig) (probs0 : List ℚ) (t : ℚ) (st : DetectorState),
      isBenignClass (cfg.classes.getD (argmax probs0) "") = true →
        (predictOnProbs cfg probs0 t st).1.is_benign = true ∧
        (predictOnProbs cfg probs0 t st).1.is_attack = false ∧
        (predictOnProbs cfg probs0 t st).1.is_high_threat = false ∧
        (predictOnProbs cfg probs0 t st).1.is_ddos = false) ∧
    (∀ (cfg : DetectorConfig) (probs0 : List ℚ) (t : ℚ) (st : DetectorState),
      (predictOnProbs cfg probs0 t st).1.is_benign = true →
        (predictOnProbs cfg probs0 t st).1.is_attack = false) := by
  constructor
  · intro cfg probs0 t st hb
    simp only [predictOnProbs_fst]
    exact ⟨hb, attackVerdict_benign cfg _ _ hb, by rw [if_pos hb], by rw [if_pos hb]⟩
  · intro cfg probs0 t st hb
    simp only [predictOnProbs_fst] at hb ⊢
    exact attackVerdict_benign cfg _ _ hb

/-- **C2** witness: class `BenignTraffic` at confidence `0.99` is benign and
not an attack. -/
theorem c2_benign_short_circuit_witness :
    (predictOnProbs sampleConfig [mkRat 99 100, mkRat 3 1000, mkRat 3 1000, mkRat 1 250]
      1 initialState).1.is_attack = false := by
  exact (c2_benign_short_circuit.1 sampleConfig
    [mkRat 99 100, mkRat 3 1000, mkRat 3 1000, mkRat 1 250] 1 initialState
    (by decide)).2.1

/-- **C3** (counterexample): with no predictions recorded `get_statistics`
returns the empty dict, so no `attack_rate = 0` entry is reported. -/
theorem c3_empty_statistics_counterexample :
    get_statistics sampleConfig initialState = none ∧
    ¬ ∃ s : Statistics,
        get_statistics sampleConfig initialState = some s ∧ s.attack_rate = 0 := by
  refine ⟨rfl, ?_⟩
  rintro ⟨s, hs, _⟩
  rw [show get_statistics sampleConfig initialState = none from rfl] at hs
  cases hs

/-- **C3** (amended): in every reachable detector state, `get_statistics`
returns the empty report when `total_predictions = 0` (so no division and
no throughput is ever computed then); whenever it returns a report,
`total_predictions > 0`, `attack_rate = attack_detections /
total_predictions`, and `throughput_per_second = 1000 / mean latency`. -/
theorem c3_statistics_guarded (cfg : DetectorConfig) (st : DetectorState)
    (hreach : Reachable cfg st) :
    (st.total_predictions = 0 → get_statistics cfg st = none) ∧
    (∀ s : Statistics, get_statistics cfg st = some s →
      0 < st.total_predictions ∧
      s.attack_rate = (st.attack_detections : ℚ) / (st.total_predictions : ℚ) ∧
      s.throughput_per_second = 1000 / mean st.inference_times) := by
  have hinv := reachable_total_eq_length cfg st hreach
  constructor
  · intro h0
    have hnil : st.inference_times = [] := by
      have hlen0 : st.inference_times.length = 0 := by omega
      exact List.length_eq_zero.mp hlen0
    simp [get_statistics, hnil]
  · intro s hs
    unfold get_statistics at hs
    split at hs
    · cases hs
    · rename_i hne
      have hpos : 0 < st.total_predictions := by
        rw [hinv]
        exact List.length_pos.mpr hne
      simp only [Option.some.injEq] at hs
      subst hs
      exact ⟨hpos, by simp [if_pos hpos], rfl⟩

/-- **C3** witness: from the freshly constructed detector,
`get_statistics` reports nothing. -/
theorem c3_statistics_guarded_witness :
    get_statistics sampleConfig initialState = none :=
  (c3_statistics_guarded sampleConfig initialState Reachable.init).1 rfl

/-- **C4**: for every non-benign prediction over a probability vector
aligned with `Classes`, the predicted class is an element of `Classes` and
`is_ddos` holds exactly when the class label contains the substring
`"DDoS"` or `"DoS"` (case-sensitively). -/
theorem c4_is_ddos_substring (cfg : DetectorConfig) (probs0 : List ℚ) (t : ℚ)
    (st : DetectorState) (hne : probs0 ≠ [])
    (hlen : probs0.length = cfg.classes.length)
    (hb : (predictOnProbs cfg probs0 t st).1.is_benign = false) :
    (predictOnProbs cfg probs0 t st).1.predicted_class ∈ cfg.classes ∧
    ((predictOnProbs cfg probs0 t st).1.is_ddos = true ↔
      (strContains (predictOnProbs cfg probs0 t st).1.predicted_class "DDoS" = true ∨
       strContains (predictOnProbs cfg probs0 t st).1.predicted_class "DoS" = true)) := by
  simp only [predictOnProbs_fst] at hb ⊢
  have hlt : argmax probs0 < cfg.classes.length := hlen ▸ argmax_lt_length probs0 hne
  have hmem : cfg.classes.getD (argmax probs0) "" ∈ cfg.classes := by
    rw [List.getD_eq_getElem _ _ hlt]
    exact List.getElem_mem hlt
  refine ⟨hmem, ?_⟩
  rw [if_neg (by rw [Bool.not_eq_true]; exact hb), decide_eq_true_eq,
    mem_ddosClasses_iff]
  exact ⟨fun h => h.2, fun h => ⟨hmem, h⟩⟩

/-- **C4** witness: the predicted class `DDoS-ICMP_Flood` is one of the
configured classes (and its `is_ddos` signal agrees with the substring
test). -/
theorem c4_is_ddos_substring_witness :
    (predictOnProbs sampleConfig [mkRat 1 20, mkRat 17 20, mkRat 1 20, mkRat 1 20] 1
      initialState).1.predicted_class ∈ sampleConfig.classes := by
  exact (c4_is_ddos_substring sampleConfig
    [mkRat 1 20, mkRat 17 20, mkRat 1 20, mkRat 1 20] 1 initialState
    (by decide) (by decide) (by decide)).1

/-- **C5**: the worker routes every result into exactly one severity bucket,
tested in source order (attack, then benign, then `confidence ≥ threshold`,
else low risk), and appends a line to the alert log iff `is_attack`. -/
theorem c5_routing (thr : ℚ) (r : PredictionResult) :
    (reportBuckets (processOne thr r)).length = 1 ∧
    alertLines (processOne thr r) = (if r.is_attack then [r] else []) ∧
    (r.is_attack = true → reportBuckets (processOne thr r) = [Bucket.critical]) ∧
    (r.is_attack = false → r.is_benign = true →
      reportBuckets (processOne thr r) = [Bucket.normal]) ∧
    (r.is_attack = false → r.is_benign = false → thr ≤ r.confidence →
      reportBuckets (processOne thr r) = [Bucket.suspicious]) ∧
    (r.is_attack = false → r.is_benign = false → r.confidence < thr →
      reportBuckets (processOne thr r) = [Bucket.lowRisk]) := by
  cases ha : r.is_attack with
  | true => simp [processOne, ha, reportBuckets, alertLines]
  | false =>
    cases hbe : r.is_benign with
    | true => simp [processOne, ha, hbe, reportBuckets, alertLines]
    | false =>
      by_cases hc : thr ≤ r.confidence
      · simp only [processOne, ha, hbe, if_pos hc, Bool.false_eq_true, if_false]
        simp [reportBuckets, alertLines]
        exact hc
      · simp only [processOne, ha, hbe, if_neg hc, Bool.false_eq_true, if_false]
        simp [reportBuckets, alertLines]
        exact not_le.mp hc

/-- **C5** witness: a critical-attack result produces exactly the CRITICAL
notice together with an alert-log line. -/
theorem c5_routing_witness :
    reportBuckets (processOne (mkRat 4 5) sampleAttackResult) = [Bucket.critical] :=
  (c5_routing (mkRat 4 5) sampleAttackResult).2.2.1 rfl

/-- **C6**: the normalizer produces a single-row `float32` batch whose row
length equals the number of required feature names; the underlying feature
vector follows the required order, reading each required name from the
input mapping and substituting `0.0` for every absent name. -/
theorem c6_preprocess_shape (scaler : FittedScaler) (names : List String)
    (fd : List (String × ℚ)) :
    (feature_values names fd).length = names.length ∧
    (∀ i, i < names.length →
      (feature_values names fd).getD i 0 = dictGetD fd (names.getD i "") 0) ∧
    (∀ i, i < names.length → fd.lookup (names.getD i "") = none →
      (feature_values names fd).getD i 0 = 0) ∧
    (preprocess_features scaler names fd).1.rows.length = 1 ∧
    (∀ row ∈ (preprocess_features scaler names fd).1.rows,
      row.length = names.length) ∧
    (preprocess_features scaler names fd).1.dtype = Dtype.float32 := by
  obtain ⟨h1, h2, h3⟩ := preprocess_features_shape scaler names fd
  exact ⟨feature_values_length names fd, fun i hi => feature_values_getD names fd i hi,
    fun i hi hm => feature_values_missing names fd i hi hm, h1, h2, h3⟩

/-- **C6** witness: with required names `f1, f2` and an input mapping that
only provides `f1`, the missing `f2` entry defaults to `0`. -/
theorem c6_preprocess_shape_witness :
    (feature_values ["f1", "f2"] [("f1", 5)]).getD 1 0 = 0 := by
  exact (c6_preprocess_shape sampleScaler ["f1", "f2"] [("f1", 5)]).2.2.1 1
    (by decide) (by decide)

/-- **C7**: every completed `predict` call increments `total_predictions` by
exactly one, appends exactly one latency, and increments
`attack_detections` by one iff the result is an attack (in particular the
attack counter never decreases). -/
theorem c7_predict_updates (cfg : DetectorConfig)
    (sess : List (List ℚ) → List (List ℚ)) (t : ℚ) (fd : List (String × ℚ))
    (st : DetectorState) :
    (predict cfg sess t fd st).2.total_predictions = st.total_predictions + 1 ∧
    (predict cfg sess t fd st).2.inference_times = st.inference_times ++ [t] ∧
    (predict cfg sess t fd st).2.attack_detections =
      st.attack_detections +
        (if (predict cfg sess t fd st).1.is_attack then 1 else 0) ∧
    st.attack_detections ≤ (predict cfg sess t fd st).2.attack_detections := by
  simp only [predict, predictOnProbs_snd]
  exact ⟨trivial, trivial, trivial, Nat.le_add_right _ _⟩

/-- **C8**: the predicted class is `Classes` indexed at the argmax of the
probability vector, the confidence is the maximum probability, and ties
resolve to the first index (all earlier indices are strictly below the
maximum). -/
theorem c8_argmax_confidence (cfg : DetectorConfig) (probs0 : List ℚ) (t : ℚ)
    (st : DetectorState) (hne : probs0 ≠ []) :
    (predictOnProbs cfg probs0 t st).1.predicted_class =
      cfg.classes.getD (argmax probs0) "" ∧
    (predictOnProbs cfg probs0 t st).1.confidence = listMax probs0 ∧
    argmax probs0 < probs0.length ∧
    (∀ j, j < probs0.length → probs0.getD j 0 ≤ listMax probs0) ∧
    (∀ j, j < argmax probs0 → probs0.getD j 0 < listMax probs0) := by
  rw [predictOnProbs_fst]
  refine ⟨rfl, getD_argmax probs0 hne, argmax_lt_length probs0 hne, ?_,
    getD_lt_listMax_of_lt_argmax probs0⟩
  intro j hj
  rw [List.getD_eq_getElem _ _ hj]
  exact le_listMax probs0 _ (List.getElem_mem hj)

/-- **C8** witness: on `[0.2, 0.5, 0.5]` the tie at the maximum resolves to
index 1 and the confidence is the maximum `0.5`. -/
theorem c8_argmax_confidence_witness :
    (predictOnProbs sampleConfig [mkRat 1 5, mkRat 1 2, mkRat 1 2] 1
      initialState).1.confidence = mkRat 1 2 := by
  exact ((c8_argmax_confidence sampleConfig [mkRat 1 5, mkRat 1 2, mkRat 1 2] 1
    initialState (by decide)).2.1).trans (by decide)

/-- **C9**: when the fitted scaling transform fails, preprocessing does not
abort: it returns the raw unscaled feature vector as the `float32` batch,
emits a warning, and `predict` still completes, classifying the session's
output on the unscaled batch. -/
theorem c9_scaler_fallback (cfg : DetectorConfig)
    (sess : List (List ℚ) → List (List ℚ)) (t : ℚ) (fd : List (String × ℚ))
    (st : DetectorState) (e : String)
    (herr : cfg.scaler.transformRow (feature_values cfg.feature_names fd) =
      Except.error e) :
    (preprocess_features cfg.scaler cfg.feature_names fd).1 =
      { dtype := Dtype.float32, rows := [feature_values cfg.feature_names fd] } ∧
    (preprocess_features cfg.scaler cfg.feature_names fd).2 ≠ [] ∧
    predict cfg sess t fd st =
      predictOnProbs cfg ((sess [feature_values cfg.feature_names fd]).getD 0 [])
        t st := by
  have hpre := preprocess_features_error cfg.scaler cfg.feature_names fd e herr
  refine ⟨by rw [hpre], by rw [hpre]; simp, ?_⟩
  simp only [predict, hpre]

/-- **C9** witness: a scaler fitted for zero columns fails on a one-feature
row, and preprocessing emits the warning instead of aborting. -/
theorem c9_scaler_fallback_witness :
    (preprocess_features badScalerConfig.scaler badScalerConfig.feature_names []).2
      ≠ [] := by
  exact (c9_scaler_fallback badScalerConfig (fun _ => [[1, 0]]) 1 [] initialState
    "shape mismatch: transform not fitted for given columns" rfl).2.1

/-- **C10**: every result flagged as an attack has confidence strictly above
the threshold or strictly above `9/10`; with the default threshold `0.8`,
no result with confidence at most `0.8` is ever flagged. -/
theorem c10_attack_implies_confident (cfg : DetectorConfig) (probs0 : List ℚ)
    (t : ℚ) (st : DetectorState)
    (ha : (predictOnProbs cfg probs0 t st).1.is_attack = true) :
    (cfg.confidence_threshold < (predictOnProbs cfg probs0 t st).1.confidence ∨
      mkRat 9 10 < (predictOnProbs cfg probs0 t st).1.confidence) ∧
    (cfg.confidence_threshold = mkRat 4 5 →
      mkRat 4 5 < (predictOnProbs cfg probs0 t st).1.confidence) := by
  simp only [predictOnProbs_fst] at ha ⊢
  cases hbe : isBenignClass (cfg.classes.getD (argmax probs0) "") with
  | true => rw [attackVerdict_benign _ _ _ hbe] at ha; cases ha
  | false =>
    have hfrac : mkRat 4 5 < mkRat 9 10 := by decide
    rcases (attackVerdict_eq_true_iff _ _ _ hbe).mp ha with ⟨h, _⟩ | ⟨h, _⟩ | h
    · exact ⟨Or.inl h, fun he => by rw [he] at h; exact h⟩
    · exact ⟨Or.inl h, fun he => by rw [he] at h; exact h⟩
    · exact ⟨Or.inr h, fun he => hfrac.trans h⟩

/-- **C10** witness: a low-threat class at confidence `0.95` is flagged by
the absolute override, and its confidence indeed exceeds `0.8`. -/
theorem c10_attack_implies_confident_witness :
    mkRat 4 5 <
      (predictOnProbs sampleConfig [mkRat 1 100, mkRat 1 50, mkRat 1 50, mkRat 19 20] 1
        initialState).1.confidence := by
  exact (c10_attack_implies_confident sampleConfig
    [mkRat 1 100, mkRat 1 50, mkRat 1 50, mkRat 19 20] 1 initialState
    (by decide)).2 rfl

end NetworkMonitor
